import Mathlib

/-!
Shallow embedding of the bullseye archery-range simulation core
(src/examples/bullseye/bullseye-range.js) and proofs of the specified
properties.

Modelling conventions:
* JavaScript numbers are modelled as rationals (ℚ).
* The transcendental library calls (Math.sin, Math.cos, Math.sqrt,
  Math.PI) are abstracted into an oracle structure RMath; every theorem
  is parametric in the oracle, since no verified property depends on the
  numeric values those calls return.
* Math.random draws are modelled as explicit input streams: each particle
  spawn consumes a block of six sampled values, supplied as a function
  argument.
-/

namespace Bullseye

/-- 3-component vector over ℚ, embedding tiny-graphics vec3. -/
structure Vec3 where
  x : ℚ
  y : ℚ
  z : ℚ
deriving DecidableEq, Repr

/-- vec3 componentwise addition (tiny-graphics .plus). -/
def Vec3.plus (a b : Vec3) : Vec3 := ⟨a.x + b.x, a.y + b.y, a.z + b.z⟩

/-- vec3 componentwise subtraction (tiny-graphics .minus). -/
def Vec3.minus (a b : Vec3) : Vec3 := ⟨a.x - b.x, a.y - b.y, a.z - b.z⟩

/-- vec3 scalar multiplication (tiny-graphics .times with a scalar). -/
def Vec3.times (a : Vec3) (k : ℚ) : Vec3 := ⟨a.x * k, a.y * k, a.z * k⟩

/-- The zero vector, vec3(0, 0, 0). -/
def vzero : Vec3 := ⟨0, 0, 0⟩

/-- RGBA color record, embedding tiny-graphics color(r, g, b, a). -/
structure Color4 where
  r : ℚ
  g : ℚ
  b : ℚ
  a : ℚ
deriving DecidableEq, Repr

/-- Oracle for the transcendental Math library calls used by the code. -/
structure RMath where
  sin : ℚ → ℚ
  cos : ℚ → ℚ
  sqrt : ℚ → ℚ
  pi : ℚ

/- =========================
   GAME_CONFIG constants
========================= -/

def maxShotsConfig : ℕ := 20
def gravityConfig : ℚ := -15
def baseArrowSpeed : ℚ := 60
def aimSensitivity : ℚ := 4/100
def maxDrawStrengthConfig : ℚ := 1
def drawChargeRate : ℚ := 12/10
def playerHeight : ℚ := 2
def arrowSpawnForward : ℚ := 1
def dtClamp : ℚ := 1/30

/- =========================
   TARGET_SCORING
========================= -/

/-- The TARGET_SCORING table: (frac, points) rows in source order. -/
def TARGET_SCORING : List (ℚ × ℕ) :=
  [(1/5, 10), (2/5, 8), (3/5, 6), (4/5, 4), (1, 2)]

/-- Walk a scoring-band table in order, returning the first band whose
frac bound admits the argument; 0 when no band matches. -/
def scoreFromBands : List (ℚ × ℕ) → ℚ → ℕ
  | [], _ => 0
  | band :: rest, frac => if frac ≤ band.1 then band.2 else scoreFromBands rest frac

/-- score_for_radius_fraction from the source: first matching band of
TARGET_SCORING, else 0. -/
def score_for_radius_fraction (frac : ℚ) : ℕ :=
  scoreFromBands TARGET_SCORING frac

/- =========================
   Weather presets
========================= -/

/-- The four weather preset names, in the order of the
weather_types array of the source. -/
inductive WeatherType where
  | clear
  | wind
  | rain
  | snow
deriving DecidableEq, Repr

/-- Particle template of a preset: life / speedX / speedY ranges plus
render color and scale. -/
structure ParticleTemplate where
  lifeLo : ℚ
  lifeHi : ℚ
  speedXLo : ℚ
  speedXHi : ℚ
  speedYLo : ℚ
  speedYHi : ℚ
  pcolor : Color4
  pscale : Vec3
deriving DecidableEq, Repr

/-- A weather preset. The wind angle in the source is Math.PI times a
rational coefficient; we store the coefficient and multiply by the
oracle's pi where the angle is consumed. -/
structure Preset where
  spawnPerFrame : ℕ
  windStrength : ℚ
  windAngleCoeff : ℚ
  particle : Option ParticleTemplate
deriving DecidableEq, Repr

/-- WEATHER_PRESETS from the source, keyed by preset name. -/
def WEATHER_PRESETS : WeatherType → Preset
  | .clear => ⟨0, 0, 0, none⟩
  | .wind =>
      ⟨2, 6, 7/10,
        some ⟨3, 5, 15, 20, -2, -1, ⟨8/10, 8/10, 7/10, 3/10⟩, ⟨1/10, 1/10, 1/10⟩⟩⟩
  | .rain =>
      ⟨10, 2, 3/10,
        some ⟨1, 3/2, -1, 1, -40, -30, ⟨6/10, 7/10, 9/10, 6/10⟩, ⟨5/100, 6/10, 5/100⟩⟩⟩
  | .snow =>
      ⟨5, 1, 85/100,
        some ⟨5, 7, -1, 1, -6, -4, ⟨9/10, 9/10, 1, 8/10⟩, ⟨12/100, 12/100, 12/100⟩⟩⟩

/-- randRange(min, max) with the Math.random() draw u made explicit:
min + u * (max - min). -/
def randRange (lo hi u : ℚ) : ℚ := lo + u * (hi - lo)

/- =========================
   Weather System
========================= -/

/-- A live weather particle. -/
structure Particle where
  pos : Vec3
  vel : Vec3
  life : ℚ
  age : ℚ
  pcolor : Color4
  pscale : Vec3
deriving DecidableEq, Repr

/-- WeatherSystem state: the particle list, the particle cap, the
preset-name array and the index of the current preset.  (The square
mesh field is render-only and omitted.) -/
structure WeatherSystem where
  particles : List Particle
  max_particles : ℕ
  weather_types : List WeatherType
  current_index : ℕ
deriving DecidableEq, Repr

/-- The WeatherSystem constructor: no particles, cap 400, the fixed
four-name array, index 0. -/
def mkWeatherSystem : WeatherSystem :=
  ⟨[], 400, [.clear, .wind, .rain, .snow], 0⟩

namespace WeatherSystem

/-- The type getter: weather_types[current_index].  Reachable states
always have current_index < weather_types.length; out-of-range access
(undefined in JS) is defaulted to clear. -/
def type (w : WeatherSystem) : WeatherType :=
  w.weather_types.getD w.current_index .clear

/-- The preset getter: WEATHER_PRESETS[this.type]. -/
def preset (w : WeatherSystem) : Preset :=
  WEATHER_PRESETS w.type

/-- cycle_type: advance current_index cyclically; if the new type is
clear, drop all particles. -/
def cycle_type (w : WeatherSystem) : WeatherSystem :=
  let w' := { w with current_index := (w.current_index + 1) % w.weather_types.length }
  if w'.type = .clear then { w' with particles := [] } else w'

/-- Build the particle pushed by spawn_particle from the template and the
six Math.random() draws (three position, two velocity, one life). -/
def freshParticle (p : ParticleTemplate) (u : Fin 6 → ℚ) : Particle :=
  { pos := ⟨randRange (-30) 30 (u 0), randRange 15 20 (u 1), randRange (-80) (-20) (u 2)⟩
    vel := ⟨randRange p.speedXLo p.speedXHi (u 3), randRange p.speedYLo p.speedYHi (u 4), 0⟩
    life := randRange p.lifeLo p.lifeHi (u 5)
    age := 0
    pcolor := p.pcolor
    pscale := p.pscale }

/-- spawn_particle: no-op when the preset has no particle template or the
collection is at the cap; otherwise push one new particle. -/
def spawn_particle (u : Fin 6 → ℚ) (w : WeatherSystem) : WeatherSystem :=
  match w.preset.particle with
  | none => w
  | some p =>
      if w.max_particles ≤ w.particles.length then w
      else { w with particles := w.particles ++ [freshParticle p u] }

/-- The aging / integration / culling pass of WeatherSystem.update: age
each particle, drop it once age exceeds life, advance its position, drop
it once below y = -5. -/
def stepParticles (dt : ℚ) (ps : List Particle) : List Particle :=
  ps.filterMap fun p =>
    let p1 := { p with age := p.age + dt }
    if p1.life < p1.age then none
    else
      let p2 := { p1 with pos := p1.pos.plus (p1.vel.times dt) }
      if p2.pos.y < -5 then none else some p2

/-- WeatherSystem.update: spawn spawnPerFrame particles (each consuming a
block of random draws), then run the aging pass. -/
def update (us : ℕ → Fin 6 → ℚ) (dt : ℚ) (w : WeatherSystem) : WeatherSystem :=
  let w1 := (List.range w.preset.spawnPerFrame).foldl (fun acc i => spawn_particle (us i) acc) w
  { w1 with particles := stepParticles dt w1.particles }

end WeatherSystem

/- =========================
   Moving Target (Lissajous)
========================= -/

/-- Target state. -/
structure Target where
  base_center : Vec3
  radius : ℚ
  depth : ℚ
  amp_x : ℚ
  amp_y : ℚ
  freq_x : ℚ
  freq_y : ℚ
  time : ℚ
deriving DecidableEq, Repr

/-- The Target constructor (time starts at 0). -/
def mkTarget (center : Vec3) (radius depth amp_x amp_y freq_x freq_y : ℚ) : Target :=
  ⟨center, radius, depth, amp_x, amp_y, freq_x, freq_y, 0⟩

/-- Target.update: accumulate elapsed time. -/
def Target.update (dt : ℚ) (t : Target) : Target :=
  { t with time := t.time + dt }

/-- Target.get_center: base center plus per-axis sinusoidal offset
(z never moves). -/
def Target.get_center (o : RMath) (t : Target) : Vec3 :=
  ⟨t.base_center.x + t.amp_x * o.sin (t.time * t.freq_x),
   t.base_center.y + t.amp_y * o.sin (t.time * t.freq_y),
   t.base_center.z⟩

/- =========================
   Arrow Projectile
========================= -/

/-- Arrow state. -/
structure Arrow where
  pos : Vec3
  prev_pos : Vec3
  vel : Vec3
  alive : Bool
  stuck : Bool
deriving DecidableEq, Repr

/-- The Arrow constructor: prev_pos starts equal to pos; alive, not
stuck. -/
def mkArrow (position velocity : Vec3) : Arrow :=
  ⟨position, position, velocity, true, false⟩

/-- Arrow.update: no-op when dead or stuck; otherwise snapshot prev_pos,
integrate velocity then position with gravity-plus-wind acceleration
(semi-implicit Euler), and kill the arrow below y = -2. -/
def Arrow.update (dt gravity : ℚ) (wind_accel : Vec3) (a : Arrow) : Arrow :=
  if a.alive = false ∨ a.stuck = true then a
  else
    let accel : Vec3 := ⟨wind_accel.x, gravity + wind_accel.y, wind_accel.z⟩
    let vel' := a.vel.plus (accel.times dt)
    let a' : Arrow := { a with prev_pos := a.pos, vel := vel', pos := a.pos.plus (vel'.times dt) }
    if a'.pos.y < -2 then { a' with alive := false } else a'

/- =========================
   Game Session state
========================= -/

/-- The simulation-relevant fields of the Bullseye_Range component. -/
structure Session where
  score : ℕ
  shots_taken : ℕ
  max_shots : ℕ
  streak : ℕ
  aim_yaw : ℚ
  aim_pitch : ℚ
  aim_sensitivity : ℚ
  is_drawing : Bool
  draw_strength : ℚ
  max_draw_strength : ℚ
  arrows : List Arrow
  gravity : ℚ
  weather : WeatherSystem
  target_centers : List Vec3
  targets : List Target
deriving DecidableEq, Repr

/-- reset_game: the initial / reset session state, with the two fixed
targets of the source. -/
def reset_game : Session :=
  { score := 0
    shots_taken := 0
    max_shots := maxShotsConfig
    streak := 0
    aim_yaw := 0
    aim_pitch := 0
    aim_sensitivity := aimSensitivity
    is_drawing := false
    draw_strength := 0
    max_draw_strength := maxDrawStrengthConfig
    arrows := []
    gravity := gravityConfig
    weather := mkWeatherSystem
    target_centers := []
    targets :=
      [mkTarget ⟨-5, 4, -40⟩ (5/2) (1/5) 4 (3/2) (12/10) (24/10),
       mkTarget ⟨6, 6, -60⟩ 3 (1/5) 8 3 (8/10) (4/10)] }

namespace Session

/-- get_weather_wind_vector: horizontal-plane wind vector from the
active preset's strength and angle (the angle is the oracle's pi times
the stored coefficient). -/
def get_weather_wind_vector (o : RMath) (s : Session) : Vec3 :=
  let p := s.weather.preset
  ⟨p.windStrength * o.cos (o.pi * p.windAngleCoeff), 0,
   p.windStrength * o.sin (o.pi * p.windAngleCoeff)⟩

/-- Normalization of a vec3 through the sqrt oracle
(tiny-graphics .normalized()). -/
def normalized (o : RMath) (v : Vec3) : Vec3 :=
  v.times (1 / o.sqrt (v.x * v.x + v.y * v.y + v.z * v.z))

/-- current_aim_direction: spherical-to-Cartesian conversion of
yaw/pitch, normalized. -/
def current_aim_direction (o : RMath) (s : Session) : Vec3 :=
  normalized o
    ⟨o.sin s.aim_yaw * o.cos s.aim_pitch,
     o.sin s.aim_pitch,
     -(o.cos s.aim_yaw * o.cos s.aim_pitch)⟩

/-- get_player_origin: vec3(0, playerHeight, 0). -/
def get_player_origin : Vec3 := ⟨0, playerHeight, 0⟩

/-- compute_arrow_speed: base speed scaled by the draw-charge fraction. -/
def compute_arrow_speed (s : Session) : ℚ :=
  baseArrowSpeed * (2/10 + 8/10 * s.draw_strength)

/-- spawn_arrow: no-op once the shot budget is exhausted; otherwise push
one new arrow (launch velocity biased by the wind vector) and count the
shot. -/
def spawn_arrow (o : RMath) (s : Session) : Session :=
  if s.max_shots ≤ s.shots_taken then s
  else
    let dir := s.current_aim_direction o
    let start := get_player_origin.plus (dir.times arrowSpawnForward)
    let speed := s.compute_arrow_speed
    let wind := s.get_weather_wind_vector o
    let velocity := (dir.times speed).plus wind
    { s with arrows := s.arrows ++ [mkArrow start velocity],
             shots_taken := s.shots_taken + 1 }

/-- update_aim: while the draw input is held, charge draw_strength
linearly, clamped at max_draw_strength. -/
def update_aim (is_hold : Bool) (dt : ℚ) (s : Session) : Session :=
  if is_hold = false then s
  else { s with draw_strength := min s.max_draw_strength (s.draw_strength + drawChargeRate * dt) }

/-- The press handler of the Draw / Release button: start a draw (and
zero the charge) only when not already drawing and shots remain. -/
def press_draw (s : Session) : Session :=
  if s.is_drawing = false ∧ s.shots_taken < s.max_shots then
    { s with is_drawing := true, draw_strength := 0 }
  else s

/-- The release handler of the Draw / Release button: when a draw is in
progress, end it and fire. -/
def release_draw (o : RMath) (s : Session) : Session :=
  if s.is_drawing = true then spawn_arrow o { s with is_drawing := false }
  else s

/-- The weather phase of update_simulation: this.weather.update(dt). -/
def weather_phase (us : ℕ → Fin 6 → ℚ) (dt : ℚ) (s : Session) : Session :=
  { s with weather := s.weather.update us dt }

/-- update_targets: advance every target's clock and cache the new
centers. -/
def update_targets (o : RMath) (dt : ℚ) (s : Session) : Session :=
  let targets' := s.targets.map (Target.update dt)
  { s with targets := targets', target_centers := targets'.map (Target.get_center o) }

/-- The integration half of update_arrows: every arrow steps under
gravity and the current wind vector. -/
def integrate_arrows (o : RMath) (dt : ℚ) (s : Session) : Session :=
  let wind_vec := s.get_weather_wind_vector o
  { s with arrows := s.arrows.map (Arrow.update dt s.gravity wind_vec) }

/-- The pruning half of update_arrows: drop arrows whose alive flag is
false. -/
def prune_dead (s : Session) : Session :=
  { s with arrows := s.arrows.filter (fun a => a.alive) }

/-- update_arrows: integrate every arrow, then prune the dead ones. -/
def update_arrows (o : RMath) (dt : ℚ) (s : Session) : Session :=
  prune_dead (integrate_arrows o dt s)

end Session

/- =========================
   Collision Resolver
========================= -/

/-- The epsilon of the z-displacement degeneracy test, 1e-8. -/
def dzEps : ℚ := 1 / 100000000

/-- The body of one target-loop iteration of
resolve_arrow_target_collisions for one arrow: walk the
(center, target) pairs in array order; on the first hit return the
stuck arrow together with the points awarded; on degenerate
z-displacement, a non-crossing, an out-of-range intersection parameter
or a radial miss, continue with the remaining targets. -/
def tryTargets (o : RMath) : List (Vec3 × Target) → Arrow → Option (Arrow × ℕ)
  | [], _ => none
  | (center, target) :: rest, a =>
      let z0 := a.prev_pos.z
      let z1 := a.pos.z
      let tz := center.z
      let dz := z1 - z0
      if |dz| < dzEps then tryTargets o rest a
      else if ¬((z0 - tz) * (z1 - tz) ≤ 0) then tryTargets o rest a
      else
        let tHit := (tz - z0) / dz
        if tHit < 0 ∨ 1 < tHit then tryTargets o rest a
        else
          let segment := a.pos.minus a.prev_pos
          let hit_pos := a.prev_pos.plus (segment.times tHit)
          let dx := hit_pos.x - center.x
          let dy := hit_pos.y - center.y
          let r := o.sqrt (dx * dx + dy * dy)
          if r ≤ target.radius then
            let points := score_for_radius_fraction (r / target.radius)
            some ({ a with stuck := true, vel := vzero,
                           pos := hit_pos.plus ⟨0, 0, 2/10⟩ }, points)
          else tryTargets o rest a

/-- One arrow's outcome in the resolver: skipped entirely when dead or
already stuck, otherwise tested against the targets. -/
def resolveOne (o : RMath) (pairs : List (Vec3 × Target)) (a : Arrow) : Option (Arrow × ℕ) :=
  if a.alive = false ∨ a.stuck = true then none else tryTargets o pairs a

/-- The arrow loop of resolve_arrow_target_collisions: arrows are
processed in list order, threading score and streak left to right; a hit
replaces the arrow by its stuck version, adds the points to the score
and updates the streak (increment on points ≥ 8, else reset to 0). -/
def resolveList (o : RMath) (pairs : List (Vec3 × Target)) :
    List Arrow → ℕ → ℕ → List Arrow × ℕ × ℕ
  | [], score, streak => ([], score, streak)
  | a :: rest, score, streak =>
      match resolveOne o pairs a with
      | none =>
          let r := resolveList o pairs rest score streak
          (a :: r.1, r.2)
      | some (a', points) =>
          let r := resolveList o pairs rest (score + points)
                     (if 8 ≤ points then streak + 1 else 0)
          (a' :: r.1, r.2)

namespace Session

/-- resolve_arrow_target_collisions: run the arrow loop against the
cached target centers paired with the targets. -/
def resolve_arrow_target_collisions (o : RMath) (s : Session) : Session :=
  let r := resolveList o (s.target_centers.zip s.targets) s.arrows s.score s.streak
  { s with arrows := r.1, score := r.2.1, streak := r.2.2 }

/-- update_simulation: weather, then targets, then arrows (integration
and pruning), then collisions. -/
def update_simulation (o : RMath) (us : ℕ → Fin 6 → ℚ) (dt : ℚ) (s : Session) : Session :=
  resolve_arrow_target_collisions o
    (update_arrows o dt (update_targets o dt (weather_phase us dt s)))

end Session

/-- The per-frame time-step computation of render_animation: raw
animation_delta_time (milliseconds) divided by 1000, then clamped from
above by dtClamp via Math.min. -/
def frame_dt (delta_ms : ℚ) : ℚ :=
  min (delta_ms / 1000) dtClamp

/-- The crossing point of the arrow's previous-to-current segment with a
target's z-plane at center c, as interpolated by the resolver: the
segment endpoint mix at parameter (c.z - prev.z) / (pos.z - prev.z). -/
def crossPoint (c : Vec3) (a : Arrow) : Vec3 :=
  a.prev_pos.plus ((a.pos.minus a.prev_pos).times
    ((c.z - a.prev_pos.z) / (a.pos.z - a.prev_pos.z)))

/-- One weather operation: a tick of update (with its random draws and
time step) or a cycle_type call. -/
inductive WOp where
  | upd (us : ℕ → Fin 6 → ℚ) (dt : ℚ)
  | cyc

/-- Apply one weather operation. -/
def applyWOp (w : WeatherSystem) : WOp → WeatherSystem
  | .upd us dt => w.update us dt
  | .cyc => w.cycle_type

/-- Invariant of an arrow collection: stuck arrows carry zero
velocity. -/
def ArrowsStuckZero (l : List Arrow) : Prop :=
  ∀ a ∈ l, a.stuck = true → a.vel = vzero

/-- Session-level invariant: every stuck arrow of the session carries
zero velocity. -/
def StuckZero (s : Session) : Prop :=
  ArrowsStuckZero s.arrows

/- =========================
   Concrete instances used by witnesses and counterexamples
========================= -/

/-- A concrete transcendental oracle (all calls return 0). -/
def oZero : RMath := ⟨fun _ => 0, fun _ => 0, fun _ => 0, 0⟩

/-- A concrete random stream (all draws 0). -/
def uZero : ℕ → Fin 6 → ℚ := fun _ _ => 0

/-- A session in the middle of a draw with charge 1/2 and the full shot
budget remaining. -/
def sDrawn : Session :=
  { reset_game with is_drawing := true, draw_strength := 1/2 }

/-- A concrete particle. -/
def pZero : Particle := ⟨vzero, vzero, 1, 0, ⟨0, 0, 0, 0⟩, vzero⟩

/-- A weather system at the particle cap. -/
def wFull : WeatherSystem :=
  ⟨List.replicate 400 pZero, 400, [.clear, .wind, .rain, .snow], 0⟩

/-- An oracle whose sqrt always answers 10 (used to exhibit a radial
miss). -/
def oTen : RMath := ⟨fun _ => 0, fun _ => 0, fun _ => 10, 0⟩

/-- An arrow whose segment crosses the z = 0 plane far from the
origin. -/
def aMiss : Arrow := ⟨⟨10, 0, -1⟩, ⟨10, 0, 1⟩, ⟨0, 0, -2⟩, true, false⟩

/-- A target center on the z = 0 plane. -/
def cMiss : Vec3 := ⟨0, 0, 0⟩

/-- A target of radius 5/2 at that center. -/
def tMiss : Target := mkTarget cMiss (5/2) (1/5) 4 (3/2) (12/10) (24/10)

/-- A concrete stuck, alive arrow. -/
def aStuck : Arrow := ⟨⟨0, 4, -40 + 2/10⟩, ⟨0, 4, -41⟩, vzero, true, true⟩

/-- A session holding that stuck arrow. -/
def sStuck : Session := { reset_game with arrows := [aStuck] }

/-- A session with the shot budget exhausted. -/
def sSpent : Session := { reset_game with shots_taken := 20 }

/- =========================
   Helper lemmas
========================= -/

/-- A stuck arrow is untouched by Arrow.update, whatever dt, gravity and
wind are. -/
theorem Arrow.update_of_stuck (dt gravity : ℚ) (wv : Vec3) (a : Arrow)
    (h : a.stuck = true) : Arrow.update dt gravity wv a = a := by
  simp [Arrow.update, h]

/-- Arrow.update never changes the stuck flag. -/
theorem Arrow.update_stuck_eq (dt gravity : ℚ) (wv : Vec3) (a : Arrow) :
    (Arrow.update dt gravity wv a).stuck = a.stuck := by
  unfold Arrow.update
  split
  · rfl
  · dsimp only
    split <;> rfl

/-- When tryTargets reports a hit, the returned arrow is the input arrow
made stuck, with zero velocity and the alive flag unchanged. -/
theorem tryTargets_some (o : RMath) (pairs : List (Vec3 × Target)) (a a' : Arrow) (pts : ℕ)
    (h : tryTargets o pairs a = some (a', pts)) :
    a'.stuck = true ∧ a'.vel = vzero ∧ a'.alive = a.alive := by
  induction pairs with
  | nil => simp [tryTargets] at h
  | cons p rest ih =>
      obtain ⟨c, t⟩ := p
      unfold tryTargets at h
      dsimp only at h
      split at h
      · exact ih h
      · split at h
        · exact ih h
        · split at h
          · exact ih h
          · split at h
            · simp only [Option.some.injEq, Prod.mk.injEq] at h
              obtain ⟨ha', -⟩ := h
              subst ha'
              exact ⟨rfl, rfl, rfl⟩
            · exact ih h

/-- When resolveOne skips an arrow, resolveList keeps both the arrow and
the accumulators unchanged at that position. -/
theorem resolveList_cons_none (o : RMath) (pairs : List (Vec3 × Target)) (a : Arrow)
    (l : List Arrow) (sc st : ℕ) (h : resolveOne o pairs a = none) :
    resolveList o pairs (a :: l) sc st =
      ((a :: (resolveList o pairs l sc st).1), (resolveList o pairs l sc st).2) := by
  simp [resolveList, h]

/-- When resolveOne reports a hit, resolveList replaces the arrow and
feeds the updated accumulators to the rest of the list. -/
theorem resolveList_cons_some (o : RMath) (pairs : List (Vec3 × Target)) (a a' : Arrow)
    (pts : ℕ) (l : List Arrow) (sc st : ℕ) (h : resolveOne o pairs a = some (a', pts)) :
    resolveList o pairs (a :: l) sc st =
      ((a' :: (resolveList o pairs l (sc + pts) (if 8 ≤ pts then st + 1 else 0)).1),
       (resolveList o pairs l (sc + pts) (if 8 ≤ pts then st + 1 else 0)).2) := by
  simp [resolveList, h]

/-- A resolveOne hit comes from tryTargets. -/
theorem resolveOne_some (o : RMath) (pairs : List (Vec3 × Target)) (a a' : Arrow) (pts : ℕ)
    (h : resolveOne o pairs a = some (a', pts)) : tryTargets o pairs a = some (a', pts) := by
  unfold resolveOne at h
  split at h
  · exact absurd h (by simp)
  · exact h

/-- A dead or stuck arrow is skipped by resolveOne. -/
theorem resolveOne_none_of_dead_or_stuck (o : RMath) (pairs : List (Vec3 × Target)) (a : Arrow)
    (h : a.alive = false ∨ a.stuck = true) : resolveOne o pairs a = none := by
  unfold resolveOne
  rw [if_pos h]

/-- Pruning dead arrows commutes with the resolver loop: resolving the
alive-filtered list equals resolving the full list and then filtering,
with identical score and streak. -/
theorem resolveList_filter (o : RMath) (pairs : List (Vec3 × Target)) (l : List Arrow)
    (sc st : ℕ) :
    resolveList o pairs (l.filter fun a => a.alive) sc st
      = ((resolveList o pairs l sc st).1.filter (fun a => a.alive),
         (resolveList o pairs l sc st).2) := by
  induction l generalizing sc st with
  | nil => simp [resolveList]
  | cons a l ih =>
      by_cases ha : a.alive = true
      · rw [List.filter_cons_of_pos ha]
        cases hro : resolveOne o pairs a with
        | none =>
            rw [resolveList_cons_none _ _ _ _ _ _ hro, resolveList_cons_none _ _ _ _ _ _ hro,
              ih]
            rw [List.filter_cons_of_pos ha]
        | some pr =>
            obtain ⟨a', pts⟩ := pr
            have halive' : a'.alive = true := by
              rw [(tryTargets_some o pairs a a' pts (resolveOne_some o pairs a a' pts hro)).2.2]
              exact ha
            rw [resolveList_cons_some _ _ _ _ _ _ _ _ hro,
              resolveList_cons_some _ _ _ _ _ _ _ _ hro, ih]
            rw [List.filter_cons_of_pos halive']
      · have ha' : a.alive = false := by
          cases hv : a.alive
          · rfl
          · exact absurd hv ha
        have hro : resolveOne o pairs a = none :=
          resolveOne_none_of_dead_or_stuck o pairs a (Or.inl ha')
        rw [List.filter_cons_of_neg (by simp [ha']), resolveList_cons_none _ _ _ _ _ _ hro,
          ih]
        rw [List.filter_cons_of_neg (by simp [ha'])]

/-- A stuck arrow that enters the resolver loop comes out of it as an
element of the output list, unchanged. -/
theorem resolveList_mem_stuck (o : RMath) (pairs : List (Vec3 × Target)) (l : List Arrow)
    (a : Arrow) (ha : a ∈ l) (hs : a.stuck = true) :
    ∀ sc st : ℕ, a ∈ (resolveList o pairs l sc st).1 := by
  induction l with
  | nil => cases ha
  | cons b l ih =>
      intro sc st
      rcases List.mem_cons.mp ha with rfl | hmem
      · rw [resolveList_cons_none _ _ _ _ _ _
          (resolveOne_none_of_dead_or_stuck o pairs a (Or.inr hs))]
        exact List.mem_cons_self _ _
      · cases hro : resolveOne o pairs b with
        | none =>
            rw [resolveList_cons_none _ _ _ _ _ _ hro]
            exact List.mem_cons_of_mem _ (ih hmem _ _)
        | some pr =>
            obtain ⟨b', pts⟩ := pr
            rw [resolveList_cons_some _ _ _ _ _ _ _ _ hro]
            exact List.mem_cons_of_mem _ (ih hmem _ _)

/-- The resolver loop preserves the invariant that stuck arrows carry
zero velocity. -/
theorem resolveList_stuckzero (o : RMath) (pairs : List (Vec3 × Target)) (l : List Arrow)
    (hz : ∀ a ∈ l, a.stuck = true → a.vel = vzero) :
    ∀ sc st : ℕ, ∀ a ∈ (resolveList o pairs l sc st).1, a.stuck = true → a.vel = vzero := by
  induction l with
  | nil =>
      intro sc st a hmem
      simp [resolveList] at hmem
  | cons b l ih =>
      intro sc st a hmem hs
      have hz_tail : ∀ x ∈ l, x.stuck = true → x.vel = vzero :=
        fun x hx => hz x (List.mem_cons_of_mem _ hx)
      cases hro : resolveOne o pairs b with
      | none =>
          rw [resolveList_cons_none _ _ _ _ _ _ hro] at hmem
          rcases List.mem_cons.mp hmem with rfl | hmem'
          · exact hz a (List.mem_cons_self _ _) hs
          · exact ih hz_tail _ _ a hmem' hs
      | some pr =>
          obtain ⟨b', pts⟩ := pr
          rw [resolveList_cons_some _ _ _ _ _ _ _ _ hro] at hmem
          rcases List.mem_cons.mp hmem with rfl | hmem'
          · exact (tryTargets_some o pairs b a pts (resolveOne_some o pairs b a pts hro)).2.1
          · exact ih hz_tail _ _ a hmem' hs

/-- Resolving the prune-filtered session equals pruning the resolved
session. -/
theorem resolve_prune_comm (o : RMath) (s : Session) :
    Session.resolve_arrow_target_collisions o (Session.prune_dead s)
      = Session.prune_dead (Session.resolve_arrow_target_collisions o s) := by
  unfold Session.resolve_arrow_target_collisions Session.prune_dead
  dsimp only
  rw [resolveList_filter]

/-- cycle_type advances the preset index cyclically. -/
theorem cycle_index_eq (w : WeatherSystem) :
    (WeatherSystem.cycle_type w).current_index
      = (w.current_index + 1) % w.weather_types.length := by
  unfold WeatherSystem.cycle_type
  dsimp only
  split <;> rfl

/-- cycle_type leaves the preset-name array unchanged. -/
theorem cycle_types_eq (w : WeatherSystem) :
    (WeatherSystem.cycle_type w).weather_types = w.weather_types := by
  unfold WeatherSystem.cycle_type
  dsimp only
  split <;> rfl

/-- cycle_type leaves the particle cap unchanged. -/
theorem cycle_max_eq (w : WeatherSystem) :
    (WeatherSystem.cycle_type w).max_particles = w.max_particles := by
  unfold WeatherSystem.cycle_type
  dsimp only
  split <;> rfl

/-- cycle_type empties the particle collection exactly when the newly
selected preset is clear, and otherwise leaves it untouched. -/
theorem cycle_particles_eq (w : WeatherSystem) :
    (WeatherSystem.cycle_type w).particles
      = if (WeatherSystem.cycle_type w).type = .clear then [] else w.particles := by
  unfold WeatherSystem.cycle_type
  dsimp only
  split
  case isTrue h =>
    rw [if_pos]
    exact h
  case isFalse h =>
    rfl

/-- spawn_particle leaves the particle cap unchanged. -/
theorem spawn_particle_max_eq (u : Fin 6 → ℚ) (w : WeatherSystem) :
    (WeatherSystem.spawn_particle u w).max_particles = w.max_particles := by
  unfold WeatherSystem.spawn_particle
  cases hp : w.preset.particle
  · rfl
  · dsimp only
    split <;> rfl

/-- spawn_particle keeps the particle count within the cap. -/
theorem spawn_particle_len_le (u : Fin 6 → ℚ) (w : WeatherSystem)
    (h : w.particles.length ≤ w.max_particles) :
    (WeatherSystem.spawn_particle u w).particles.length
      ≤ (WeatherSystem.spawn_particle u w).max_particles := by
  unfold WeatherSystem.spawn_particle
  cases hp : w.preset.particle
  · exact h
  · dsimp only
    split
    case isTrue => exact h
    case isFalse hlt =>
      simp only [List.length_append, List.length_cons, List.length_nil]
      omega

/-- The spawn loop of WeatherSystem.update keeps the particle count
within the cap and leaves the cap itself unchanged. -/
theorem spawn_foldl_invariant (us : ℕ → Fin 6 → ℚ) (li : List ℕ) :
    ∀ w : WeatherSystem, w.particles.length ≤ w.max_particles →
      ((li.foldl (fun acc i => WeatherSystem.spawn_particle (us i) acc) w).particles.length
        ≤ (li.foldl (fun acc i => WeatherSystem.spawn_particle (us i) acc) w).max_particles
      ∧ (li.foldl (fun acc i => WeatherSystem.spawn_particle (us i) acc) w).max_particles
        = w.max_particles) := by
  induction li with
  | nil => exact fun w h => ⟨h, rfl⟩
  | cons i li ih =>
      intro w h
      simp only [List.foldl_cons]
      refine ⟨(ih _ (spawn_particle_len_le (us i) w h)).1, ?_⟩
      rw [(ih _ (spawn_particle_len_le (us i) w h)).2, spawn_particle_max_eq]

/-- The aging pass never grows the particle list. -/
theorem stepParticles_len_le (dt : ℚ) (ps : List Particle) :
    (WeatherSystem.stepParticles dt ps).length ≤ ps.length :=
  List.length_filterMap_le _ _

/-- WeatherSystem.update keeps the particle count within the cap and
leaves the cap unchanged. -/
theorem update_cap (us : ℕ → Fin 6 → ℚ) (dt : ℚ) (w : WeatherSystem)
    (h : w.particles.length ≤ w.max_particles) :
    (WeatherSystem.update us dt w).particles.length
      ≤ (WeatherSystem.update us dt w).max_particles
    ∧ (WeatherSystem.update us dt w).max_particles = w.max_particles := by
  unfold WeatherSystem.update
  dsimp only
  obtain ⟨h1, h2⟩ := spawn_foldl_invariant us (List.range w.preset.spawnPerFrame) w h
  exact ⟨le_trans (le_trans (stepParticles_len_le _ _) h1) (le_of_eq (by rw [h2])), h2⟩

/-- Every weather operation keeps the particle count within the cap and
leaves the cap unchanged. -/
theorem applyWOp_cap (w : WeatherSystem) (op : WOp)
    (h : w.particles.length ≤ w.max_particles) :
    (applyWOp w op).particles.length ≤ (applyWOp w op).max_particles
    ∧ (applyWOp w op).max_particles = w.max_particles := by
  cases op with
  | upd us dt => exact update_cap us dt w h
  | cyc =>
      simp only [applyWOp]
      refine ⟨?_, cycle_max_eq w⟩
      rw [cycle_particles_eq, cycle_max_eq]
      split
      · simp
      · exact h

/-- Any sequence of weather operations keeps the particle count within
the cap and leaves the cap unchanged. -/
theorem foldl_WOp_cap (ops : List WOp) :
    ∀ w : WeatherSystem, w.particles.length ≤ w.max_particles →
      ((ops.foldl applyWOp w).particles.length ≤ (ops.foldl applyWOp w).max_particles
      ∧ (ops.foldl applyWOp w).max_particles = w.max_particles) := by
  induction ops with
  | nil => exact fun w h => ⟨h, rfl⟩
  | cons op ops ih =>
      intro w h
      simp only [List.foldl_cons]
      obtain ⟨h1, h2⟩ := applyWOp_cap w op h
      exact ⟨(ih _ h1).1, (ih _ h1).2.trans h2⟩

/-- Firing preserves the shot-budget bound (and the budget itself). -/
theorem spawn_arrow_budget (o : RMath) (s : Session)
    (h : s.shots_taken ≤ s.max_shots) :
    (Session.spawn_arrow o s).shots_taken ≤ (Session.spawn_arrow o s).max_shots := by
  unfold Session.spawn_arrow
  split
  case isTrue => exact h
  case isFalse hlt =>
    dsimp only
    omega

/-- Any sequence of fire requests preserves the shot-budget bound. -/
theorem spawn_foldl_budget (os : List RMath) :
    ∀ s : Session, s.shots_taken ≤ s.max_shots →
      (os.foldl (fun t oo => Session.spawn_arrow oo t) s).shots_taken
        ≤ (os.foldl (fun t oo => Session.spawn_arrow oo t) s).max_shots := by
  induction os with
  | nil => exact fun s h => h
  | cons o os ih =>
      intro s h
      simp only [List.foldl_cons]
      exact ih _ (spawn_arrow_budget o s h)

/-- Arrow.update preserves the stuck-implies-zero-velocity property of a
single arrow. -/
theorem Arrow.update_stuckzero (dt gravity : ℚ) (wv : Vec3) (a : Arrow)
    (h : a.stuck = true → a.vel = vzero) :
    (Arrow.update dt gravity wv a).stuck = true → (Arrow.update dt gravity wv a).vel = vzero := by
  cases hs : a.stuck
  · intro hstuck
    rw [Arrow.update_stuck_eq, hs] at hstuck
    cases hstuck
  · rw [Arrow.update_of_stuck _ _ _ _ hs]
    exact h

/-- Mapping Arrow.update over an arrow collection preserves the
stuck-implies-zero-velocity invariant. -/
theorem map_update_stuckzero (dt gravity : ℚ) (wv : Vec3) (l : List Arrow)
    (h : ArrowsStuckZero l) : ArrowsStuckZero (l.map (Arrow.update dt gravity wv)) := by
  intro a ha
  obtain ⟨b, hb, rfl⟩ := List.mem_map.mp ha
  exact Arrow.update_stuckzero dt gravity wv b (h b hb)

/-- Filtering an arrow collection preserves the
stuck-implies-zero-velocity invariant. -/
theorem filter_stuckzero (p : Arrow → Bool) (l : List Arrow) (h : ArrowsStuckZero l) :
    ArrowsStuckZero (l.filter p) :=
  fun a ha => h a (List.mem_of_mem_filter ha)

/- =========================
   Claim theorems
========================= -/

/-- C1: the fixed per-tick phase order of the orchestrator.  The tick
function update_simulation equals, on every state, the composition
weather update, then target update, then arrow ballistic integration,
then collision resolution, and finally dead-arrow pruning.  (In the
source the filter removing dead arrows runs inside update_arrows before
the resolver; since the resolver skips dead arrows and never changes an
alive flag, the two orders produce identical states — proved here via
resolveList_filter.) -/
theorem update_simulation_phase_order (o : RMath) (us : ℕ → Fin 6 → ℚ) (dt : ℚ)
    (s : Session) :
    Session.update_simulation o us dt s
      = Session.prune_dead (Session.resolve_arrow_target_collisions o
          (Session.integrate_arrows o dt (Session.update_targets o dt
            (Session.weather_phase us dt s)))) := by
  unfold Session.update_simulation Session.update_arrows
  rw [resolve_prune_comm]

/-- C9: the per-frame time step handed to the simulation is the minimum
of the raw elapsed time (milliseconds scaled to seconds) and 1/30
second, so the clamp is an upper bound only and a zero or negative raw
elapsed time passes through unchanged. -/
theorem frame_dt_clamp (d : ℚ) :
    frame_dt d = min (d / 1000) (1/30) ∧ (d / 1000 ≤ 0 → frame_dt d = d / 1000) := by
  constructor
  · rfl
  · intro h
    unfold frame_dt dtClamp
    exact min_eq_left (h.trans (by norm_num))

/-- C9 witness: a negative elapsed time is passed through unchanged. -/
theorem frame_dt_clamp_witness : frame_dt (-30) = (-30 : ℚ) / 1000 :=
  (frame_dt_clamp (-30)).2 (by norm_num)

/-- C10: cycling the weather advances only the preset index; arriving at
a preset other than clear leaves the particle collection untouched, and
the cap and the preset-name array are never changed. -/
theorem cycle_type_frame_effect (w : WeatherSystem) :
    (WeatherSystem.cycle_type w).current_index
      = (w.current_index + 1) % w.weather_types.length
    ∧ ((WeatherSystem.cycle_type w).type ≠ .clear →
        (WeatherSystem.cycle_type w).particles = w.particles)
    ∧ (WeatherSystem.cycle_type w).max_particles = w.max_particles
    ∧ (WeatherSystem.cycle_type w).weather_types = w.weather_types := by
  refine ⟨cycle_index_eq w, ?_, cycle_max_eq w, cycle_types_eq w⟩
  intro hne
  rw [cycle_particles_eq, if_neg hne]

/-- C10 witness: cycling from the initial system lands on wind and keeps
the particle collection. -/
theorem cycle_type_frame_effect_witness :
    (WeatherSystem.cycle_type mkWeatherSystem).particles = mkWeatherSystem.particles :=
  (cycle_type_frame_effect mkWeatherSystem).2.1 (by decide)

/-- C7: the four presets repeat cyclically (four cycles restore the
preset index), the particle collection is emptied exactly when the newly
selected preset is clear, and a tick under the clear preset spawns no
particle (its particle list only shrinks through the aging pass). -/
theorem weather_cycle_period (w : WeatherSystem) (us : ℕ → Fin 6 → ℚ) (dt : ℚ)
    (h1 : w.current_index < 4)
    (h2 : w.weather_types = [.clear, .wind, .rain, .snow]) :
    (WeatherSystem.cycle_type (WeatherSystem.cycle_type (WeatherSystem.cycle_type
        (WeatherSystem.cycle_type w)))).current_index = w.current_index
    ∧ ((WeatherSystem.cycle_type w).particles
        = if (WeatherSystem.cycle_type w).type = .clear then [] else w.particles)
    ∧ (w.type = .clear →
        (WeatherSystem.update us dt w).particles
          = WeatherSystem.stepParticles dt w.particles) := by
  refine ⟨?_, cycle_particles_eq w, ?_⟩
  · rw [cycle_index_eq, cycle_types_eq, cycle_types_eq, cycle_types_eq,
      cycle_index_eq, cycle_types_eq, cycle_types_eq,
      cycle_index_eq, cycle_types_eq, cycle_index_eq, h2]
    simp only [List.length_cons, List.length_nil]
    omega
  · intro hc
    unfold WeatherSystem.update
    simp [WeatherSystem.preset, hc, WEATHER_PRESETS]

/-- C7 witness: from the initial weather system (index 0, at clear),
four cycles restore the index and a clear tick only ages particles. -/
theorem weather_cycle_period_witness :
    (WeatherSystem.cycle_type (WeatherSystem.cycle_type (WeatherSystem.cycle_type
        (WeatherSystem.cycle_type mkWeatherSystem)))).current_index
      = mkWeatherSystem.current_index
    ∧ (WeatherSystem.update uZero 0 mkWeatherSystem).particles
        = WeatherSystem.stepParticles 0 mkWeatherSystem.particles :=
  ⟨(weather_cycle_period mkWeatherSystem uZero 0 (by decide) rfl).1,
   (weather_cycle_period mkWeatherSystem uZero 0 (by decide) rfl).2.2 rfl⟩

/-- C5: shots_taken never exceeds max_shots under any sequence of fire
requests, a fire request at the exhausted budget is a complete no-op on
the session state (so shots_taken, arrows, score and streak are all
unchanged), and the budget is the fixed 20 of reset_game. -/
theorem shot_budget_bound (o : RMath) (s : Session)
    (h : s.shots_taken ≤ s.max_shots) :
    (∀ os : List RMath,
        (os.foldl (fun t oo => Session.spawn_arrow oo t) s).shots_taken
          ≤ (os.foldl (fun t oo => Session.spawn_arrow oo t) s).max_shots)
    ∧ (s.shots_taken = s.max_shots → Session.spawn_arrow o s = s)
    ∧ reset_game.shots_taken = 0 ∧ reset_game.max_shots = 20 := by
  refine ⟨fun os => spawn_foldl_budget os s h, ?_, rfl, rfl⟩
  intro he
  unfold Session.spawn_arrow
  rw [if_pos (le_of_eq he.symm)]

/-- C5 witness: a fire request on a session with 20 of 20 shots taken is
a no-op, and a fresh session stays within budget after a fire. -/
theorem shot_budget_bound_witness :
    Session.spawn_arrow oZero sSpent = sSpent
    ∧ ([oZero].foldl (fun t oo => Session.spawn_arrow oo t) reset_game).shots_taken
        ≤ ([oZero].foldl (fun t oo => Session.spawn_arrow oo t) reset_game).max_shots :=
  ⟨(shot_budget_bound oZero sSpent (by decide)).2.1 (by decide),
   (shot_budget_bound oZero reset_game (by decide)).1 [oZero]⟩

/-- C6: under any sequence of weather ticks and cycles, from any state
within the cap of 400, the particle count never exceeds 400; and a
spawn attempted at capacity is skipped, adding no particle. -/
theorem particle_cap_bound (w : WeatherSystem)
    (h1 : w.max_particles = 400) (h2 : w.particles.length ≤ 400) :
    (∀ ops : List WOp, (ops.foldl applyWOp w).particles.length ≤ 400)
    ∧ (w.particles.length = w.max_particles →
        ∀ u : Fin 6 → ℚ, WeatherSystem.spawn_particle u w = w) := by
  constructor
  · intro ops
    obtain ⟨hl, hm⟩ := foldl_WOp_cap ops w (h1 ▸ h2)
    rw [hm, h1] at hl
    exact hl
  · intro he u
    unfold WeatherSystem.spawn_particle
    cases hp : w.preset.particle
    · rfl
    · dsimp only
      rw [if_pos (le_of_eq he.symm)]

/-- C6 witness: a weather system holding exactly 400 particles skips a
spawn, and stays within the cap across a cycle and a tick. -/
theorem particle_cap_bound_witness :
    WeatherSystem.spawn_particle (uZero 0) wFull = wFull
    ∧ ([WOp.cyc, WOp.upd uZero 1].foldl applyWOp wFull).particles.length ≤ 400 :=
  ⟨(particle_cap_bound wFull rfl (by simp only [wFull, List.length_replicate, le_refl])).2
      (by simp only [wFull, List.length_replicate]) (uZero 0),
   (particle_cap_bound wFull rfl
      (by simp only [wFull, List.length_replicate, le_refl])).1 [WOp.cyc, WOp.upd uZero 1]⟩

/-- C2 counterexample: releasing a draw does not reset the draw-charge
strength.  From a drawing session with charge 1/2 and the full budget,
the release fires one arrow but leaves draw_strength at 1/2, not 0. -/
theorem release_reset_counterexample :
    sDrawn.is_drawing = true
    ∧ (Session.release_draw oZero sDrawn).arrows.length = sDrawn.arrows.length + 1
    ∧ (Session.release_draw oZero sDrawn).draw_strength = 1/2
    ∧ ¬((Session.release_draw oZero sDrawn).draw_strength = 0) := by
  refine ⟨rfl, rfl, rfl, ?_⟩
  intro hzero
  have : (1 : ℚ)/2 = 0 := hzero
  norm_num at this

/-- C2 amended: a release while drawing fires exactly one arrow when the
budget is not exhausted and ends the draw, but leaves draw_strength
unchanged; the charge is reset to 0 only when the next draw begins (a
press while not drawing with budget remaining). -/
theorem release_fires_press_resets (o : RMath) (s : Session)
    (h : s.is_drawing = true) :
    (s.shots_taken < s.max_shots →
        (Session.release_draw o s).arrows.length = s.arrows.length + 1)
    ∧ (Session.release_draw o s).draw_strength = s.draw_strength
    ∧ (Session.release_draw o s).is_drawing = false
    ∧ (∀ s' : Session, s'.is_drawing = false → s'.shots_taken < s'.max_shots →
        (Session.press_draw s').draw_strength = 0) := by
  unfold Session.release_draw
  rw [if_pos h]
  refine ⟨?_, ?_, ?_, ?_⟩
  · intro hlt
    unfold Session.spawn_arrow
    rw [if_neg (by simpa using not_le.mpr hlt)]
    simp
  · unfold Session.spawn_arrow
    split <;> rfl
  · unfold Session.spawn_arrow
    split <;> rfl
  · intro s' hd hlt
    unfold Session.press_draw
    rw [if_pos ⟨hd, hlt⟩]

/-- C2 amended witness: the concrete drawing session fires one arrow on
release, keeps its charge, and the next press zeroes the charge. -/
theorem release_fires_press_resets_witness :
    (Session.release_draw oZero sDrawn).arrows.length = sDrawn.arrows.length + 1
    ∧ (Session.release_draw oZero sDrawn).draw_strength = sDrawn.draw_strength
    ∧ (Session.press_draw (Session.release_draw oZero sDrawn)).draw_strength = 0 :=
  ⟨(release_fires_press_resets oZero sDrawn rfl).1 (by decide),
   (release_fires_press_resets oZero sDrawn rfl).2.1,
   (release_fires_press_resets oZero sDrawn rfl).2.2.2 _
     (release_fires_press_resets oZero sDrawn rfl).2.2.1 (by decide)⟩

/-- C4: a stuck arrow is frozen.  Arrow.update is the identity on every
stuck arrow for any dt, gravity and wind, and the invariant that every
stuck arrow carries zero velocity is established at reset, preserved by
firing, and preserved by every simulation tick (a newly stuck arrow has
its velocity zeroed by the resolver at the moment it sticks). -/
theorem stuck_arrows_frozen (o : RMath) (us : ℕ → Fin 6 → ℚ) (dt gravity : ℚ)
    (wv : Vec3) (s : Session) (h : StuckZero s) :
    (∀ a : Arrow, a.stuck = true → Arrow.update dt gravity wv a = a)
    ∧ StuckZero (Session.update_simulation o us dt s)
    ∧ StuckZero (Session.spawn_arrow o s)
    ∧ StuckZero reset_game := by
  refine ⟨fun a ha => Arrow.update_of_stuck _ _ _ _ ha, ?_, ?_, ?_⟩
  · unfold Session.update_simulation Session.update_arrows Session.integrate_arrows
      Session.prune_dead Session.update_targets Session.weather_phase
      Session.resolve_arrow_target_collisions
    dsimp only
    intro a ha
    exact resolveList_stuckzero _ _ _
      (filter_stuckzero _ _ (map_update_stuckzero _ _ _ _ h)) _ _ a ha
  · unfold Session.spawn_arrow
    split
    · exact h
    · dsimp only
      intro a ha hs
      rcases List.mem_append.mp ha with hl | hr
      · exact h a hl hs
      · rw [List.mem_singleton] at hr
        subst hr
        exact absurd hs (by simp [mkArrow])
  · intro a ha
    simp [reset_game] at ha

/-- C4 witness: the invariant holds of the concrete session holding one
stuck arrow with zero velocity, and is carried through a tick. -/
theorem stuck_arrows_frozen_witness :
    StuckZero (Session.update_simulation oZero uZero (1/60) sStuck) :=
  (stuck_arrows_frozen oZero uZero (1/60) gravityConfig vzero sStuck
    (by
      intro a ha hs
      rw [show sStuck.arrows = [aStuck] from rfl, List.mem_singleton] at ha
      subst ha
      rfl)).2.1

/-- C8: an arrow that is stuck and alive survives every simulation tick
unchanged: its update is a no-op (so its y-position can never fall below
the ground threshold and its alive flag stays true), the alive-filter
keeps it, and the resolver skips it, so the identical arrow is still a
member of the live collection after the tick. -/
theorem stuck_arrow_persists (o : RMath) (us : ℕ → Fin 6 → ℚ) (dt : ℚ) (s : Session)
    (a : Arrow) (ha : a ∈ s.arrows) (hstuck : a.stuck = true) (halive : a.alive = true) :
    a ∈ (Session.update_simulation o us dt s).arrows := by
  unfold Session.update_simulation Session.update_arrows Session.integrate_arrows
    Session.prune_dead Session.update_targets Session.weather_phase
    Session.resolve_arrow_target_collisions
  dsimp only
  refine resolveList_mem_stuck _ _ _ a ?_ hstuck _ _
  refine List.mem_filter.mpr ⟨?_, halive⟩
  exact List.mem_map.mpr ⟨a, ha, Arrow.update_of_stuck _ _ _ _ hstuck⟩

/-- C8 witness: the concrete stuck arrow is still in the collection
after a tick of the session holding it. -/
theorem stuck_arrow_persists_witness :
    aStuck ∈ (Session.update_simulation oZero uZero (1/60) sStuck).arrows :=
  stuck_arrow_persists oZero uZero (1/60) sStuck aStuck
    (List.mem_singleton.mpr rfl) rfl rfl

/-- C3: scoring bands and radial misses.  score_for_radius_fraction
awards the points of the first band, in increasing threshold order,
whose threshold admits the ring fraction (0.2 to 10, 0.4 to 8, 0.6 to 6,
0.8 to 4, 1.0 to 2, else 0); and a crossing of a target plane whose
radial distance at the interpolated point exceeds the target radius is
skipped by the resolver, so when no target registers a hit the arrow is
kept unchanged (alive, not stuck) and score and streak are unchanged. -/
theorem scoring_bands_and_radial_miss (o : RMath) (frac : ℚ) (a : Arrow) (c : Vec3)
    (t : Target) (rest : List (Vec3 × Target))
    (hdz : dzEps ≤ |a.pos.z - a.prev_pos.z|)
    (hcross : (a.prev_pos.z - c.z) * (a.pos.z - c.z) ≤ 0)
    (ht0 : 0 ≤ (c.z - a.prev_pos.z) / (a.pos.z - a.prev_pos.z))
    (ht1 : (c.z - a.prev_pos.z) / (a.pos.z - a.prev_pos.z) ≤ 1)
    (hmiss : t.radius < o.sqrt
      (((crossPoint c a).x - c.x) * ((crossPoint c a).x - c.x)
        + ((crossPoint c a).y - c.y) * ((crossPoint c a).y - c.y))) :
    score_for_radius_fraction frac
      = (if frac ≤ 1/5 then 10 else if frac ≤ 2/5 then 8 else if frac ≤ 3/5 then 6
         else if frac ≤ 4/5 then 4 else if frac ≤ 1 then 2 else 0)
    ∧ tryTargets o ((c, t) :: rest) a = tryTargets o rest a
    ∧ (∀ (pairs : List (Vec3 × Target)) (sc st : ℕ) (b : Arrow),
        tryTargets o pairs b = none → resolveList o pairs [b] sc st = ([b], sc, st)) := by
  refine ⟨rfl, ?_, ?_⟩
  · conv_lhs => rw [tryTargets.eq_def]
    dsimp only
    rw [if_neg (not_lt.mpr hdz)]
    rw [if_neg (not_not_intro hcross)]
    rw [if_neg (by push_neg; exact ⟨ht0, ht1⟩)]
    rw [if_neg (not_le.mpr (by simpa only [crossPoint] using hmiss))]
  · intro pairs sc st b hb
    have hro : resolveOne o pairs b = none := by
      unfold resolveOne
      split
      · rfl
      · exact hb
    rw [resolveList_cons_none _ _ _ _ _ _ hro]
    simp [resolveList]

/-- C3 witness: ring fraction 3/20 scores 10, and a concrete crossing at
radial distance 10 against a radius-5/2 target is skipped, leaving the
arrow and the accumulators unchanged. -/
theorem scoring_bands_and_radial_miss_witness :
    score_for_radius_fraction (3/20)
      = (if (3/20 : ℚ) ≤ 1/5 then 10 else if (3/20 : ℚ) ≤ 2/5 then 8
         else if (3/20 : ℚ) ≤ 3/5 then 6 else if (3/20 : ℚ) ≤ 4/5 then 4
         else if (3/20 : ℚ) ≤ 1 then 2 else 0)
    ∧ tryTargets oTen [(cMiss, tMiss)] aMiss = tryTargets oTen [] aMiss
    ∧ resolveList oTen [(cMiss, tMiss)] [aMiss] 5 7 = ([aMiss], 5, 7) := by
  have T := scoring_bands_and_radial_miss oTen (3/20) aMiss cMiss tMiss []
    (by norm_num [aMiss, dzEps]) (by norm_num [aMiss, cMiss])
    (by norm_num [aMiss, cMiss]) (by norm_num [aMiss, cMiss])
    (by norm_num [tMiss, mkTarget, oTen])
  exact ⟨T.1, T.2.1, T.2.2 [(cMiss, tMiss)] 5 7 aMiss (T.2.1.trans rfl)⟩

end Bullseye
